import Mathlib

/-!
Shallow embedding of `pgctl/service.py` (the `Service` class and the
`idempotent_supervise` decorator), with theorems checking the spec's claims
about status classification, lock handling, the stop-race loop, launcher
idempotence, environment construction, and directory-structure ensurance.

Conventions of the embedding:
* Python strings are `String`; `None`-able fields are `Option _`.
* The process environment is a total map `String → Option String`
  (`none` = variable not set).
* External effects (the supervision daemon, the OS flock, `Popen`/exec)
  appear as explicit parameters or as values in small action inductives;
  the code under `src/pgctl/service.py` is translated directly, while the
  interfaces it calls into (`daemontools`, `flock`) are modelled at the
  boundary the spec describes.
-/

namespace PgctlService

/-- Raw supervisor status, the fields of the `SvStat` value that
`Service.svstat` reads: `state`, `process` (optional sub-state),
`exitcode` (optional integer), `seconds` (optional elapsed seconds). -/
structure SvStat where
  state : String
  process : Option String
  exitcode : Option Int
  seconds : Option Int
  deriving DecidableEq, Repr

/-- Modelled from the spec: the distinguished `SvStat.UNSUPERVISED` state
constant lives in `pgctl/daemontools.py`, which is not under `src/`; the
spec's vocabulary names the state `unsupervised`. Only its being a fixed
string distinct from `up`/`ready`/`starting` matters here. -/
def SvStat.UNSUPERVISED : String := "unsupervised"

/-- Classification step of `Service.svstat` (service.py lines 53-61): when
the `notification-fd` file does not exist, a raw status that is plain `up`
with no sub-process, or whose sub-process is `starting` with exitcode 0 and
0 seconds in state, has its `state` replaced by `ready`; every other status
is returned unchanged. -/
def classifyStatus (notifExists : Bool) (raw : SvStat) : SvStat :=
  if notifExists = false ∧
      ((raw.state = "up" ∧ raw.process = none) ∨
        (raw.process = some "starting" ∧ raw.exitcode = some 0 ∧
          raw.seconds = some 0)) then
    { raw with state := "ready" }
  else
    raw

/-- Errors raised by the embedded operations: `NoSuchService`
(`assert_exists`), `NotReady` carrying the observed status,
`Impossible` (the exhausted retry loop), and Python's `ValueError`
(a non-numeric inherited lock string fed to `int`). -/
inductive Err where
  | noSuchService
  | notReady (status : SvStat)
  | impossible (msg : String)
  | valueError
  deriving DecidableEq, Repr

/-- Full `Service.svstat` (service.py lines 49-63): `assert_exists` first
(raising `NoSuchService` when the service directory is missing), then the
raw daemon query, then `classifyStatus`. -/
def svstatRun (dirExists notifExists : Bool) (raw : SvStat) :
    Except Err SvStat :=
  if dirExists = false then .error .noSuchService
  else .ok (classifyStatus notifExists raw)

/-- Process environment: a total map from variable names to optional values. -/
abbrev Env := String → Option String

/-- Python's `os.environ.pop(k, None)`: returns the (optional) value and the
environment with `k` removed. -/
def envPop (e : Env) (k : String) : Option String × Env :=
  (e k, fun k' => if k' = k then none else e k')

/-- Setting one variable of an environment map. -/
def envSet (e : Env) (k v : String) : Env :=
  fun k' => if k' = k then some v else e k'

/-- Python's `dict.pop(k, None)` used for its removal effect only. -/
def envRemove (e : Env) (k : String) : Env :=
  fun k' => if k' = k then none else e k'

/-- Decimal digit-run parser: `none` when a non-digit appears. -/
def decDigits : List Char → Nat → Option Nat
  | [], acc => some acc
  | c :: cs, acc =>
      if c.isDigit then decDigits cs (10 * acc + (c.toNat - 48)) else none

/-- Model of Python `int(s)` on the lock-handle strings: an optional sign
followed by a non-empty run of decimal digits, `none` standing for a
raised `ValueError` (whitespace and other `int()` niceties are irrelevant
to the `str(lock)` values the code produces). -/
def pyInt (s : String) : Option Int :=
  match s.data with
  | [] => none
  | '-' :: cs =>
      if cs = [] then none
      else (decDigits cs 0).map (fun n => -(n : Int))
  | cs => (decDigits cs 0).map (fun n => (n : Int))

/-- Outcome of entering the `Service.flock` context manager (service.py
lines 161-179): either the inherited parent lock handle is adopted (yielded
as-is, `os.close`d on exit, no acquisition attempted), or `int()` failed on
the inherited string, or a fresh exclusive flock of the service directory
is performed (followed by `ensure_directory_structure` and a chdir before
the yield). -/
inductive FlockEntry where
  | adopt (handle : Int)
  | valueErr
  | fresh
  deriving DecidableEq, Repr

/-- Entering `Service.flock`: pop `PGCTL_SERVICE_LOCK` from the
environment; a truthy (non-empty) popped string is parsed with `int` and
adopted, otherwise the fresh-acquisition branch runs. Returns the branch
taken and the environment after the pop. -/
def flockEnter (env : Env) : FlockEntry × Env :=
  match envPop env "PGCTL_SERVICE_LOCK" with
  | (some s, env') =>
      if s ≠ "" then
        match pyInt s with
        | some n => (.adopt n, env')
        | none => (.valueErr, env')
      else (.fresh, env')
  | (none, env') => (.fresh, env')

/-- Exit action of the `Service.flock` scope: the adopted inherited handle
is closed in the `finally` block; on the fresh branch release is performed
by the inner `flock` context manager of the `flock` module, not by an
`os.close` in `Service.flock`. -/
def flockExitCloses : FlockEntry → Option Int
  | .adopt h => some h
  | _ => none

/-- Modelled from the spec: outcome of one acquisition attempt of the
`flock` module's non-blocking lock used by `assert_stopped` (the `flock`
module is not under `src/`; per the spec, stop assertion uses non-blocking
acquisition and treats an already-locked directory as the `Locked`
exception). -/
inductive LockOutcome where
  | acquired
  | locked
  deriving DecidableEq, Repr

deriving instance DecidableEq for Except

/-- Observable summary of one `assert_stopped` run: its result, how many
times `self.svstat()` was invoked, and how many fresh lock-acquisition
attempts were made. -/
structure StopRun where
  result : Except Err Unit
  svstatCalls : Nat
  lockAttempts : Nat
  deriving DecidableEq, Repr

/-- Retry loop of `assert_stopped` (service.py lines 105-115): while
`racelimit > 0`, enter `self.flock()` and return on success; a `Locked`
exception triggers diagnostics and a retry. `lockSeq i` is the outcome of
the `i`-th fresh acquisition attempt; the pair returned is the result and
the total number of fresh acquisition attempts made. -/
def assertStoppedLoop (lockSeq : Nat → LockOutcome) :
    Env → Nat → Nat → Except Err Unit × Nat
  | _, 0, attempts =>
      (.error (.impossible "lost the race 10 times in a row"), attempts)
  | env, fuel + 1, attempts =>
      match flockEnter env with
      | (.adopt _, _) => (.ok (), attempts)
      | (.valueErr, _) => (.error .valueError, attempts)
      | (.fresh, env') =>
          match lockSeq attempts with
          | .acquired => (.ok (), attempts + 1)
          | .locked => assertStoppedLoop lockSeq env' fuel (attempts + 1)

/-- Whole of `Service.assert_stopped` (service.py lines 100-115): one
`svstat` call, a `NotReady` raise unless the classified state is
`UNSUPERVISED`, then the bounded retry loop with `racelimit = 10`. -/
def assertStopped (dirExists notifExists : Bool) (raw : SvStat) (env : Env)
    (lockSeq : Nat → LockOutcome) : StopRun :=
  if dirExists = false then ⟨.error .noSuchService, 1, 0⟩
  else
    let status := classifyStatus notifExists raw
    if status.state ≠ SvStat.UNSUPERVISED then
      ⟨.error (.notReady status), 1, 0⟩
    else
      let r := assertStoppedLoop lockSeq env 10 0
      ⟨r.1, 1, r.2⟩

/-- Directives sent to the supervision daemon via `svc` (addressed by the
service path): `-u` (bring up) and `-dx` (bring down and exit). -/
inductive Directive where
  | svcUp (path : String)
  | svcDownExit (path : String)
  deriving DecidableEq, Repr

/-- `Service.stop` (service.py lines 78-81): `assert_exists()` — raising
`NoSuchService` when the service directory is missing — then
`svc(('-dx', path))`. The classified status is passed as a parameter to
record that the code never consults it. -/
def stopRun (path : String) (dirExists : Bool) (_status : SvStat) :
    Except Err Directive :=
  if dirExists = false then .error .noSuchService
  else .ok (.svcDownExit path)

/-- Actions a launcher run can perform, in order: entering the
`Service.flock` scope, opening the timestamped log sink, spawning
`s6-supervise` with `Popen`, exec-replacing the process with
`s6-supervise`. -/
inductive LaunchAction where
  | enterFlock
  | openLogSink
  | spawnSupervise
  | execSupervise
  deriving DecidableEq, Repr

/-- The `idempotent_supervise` decorator (service.py lines 31-40): when
`svok` reports a live supervisor for the service path, return at once with
no action; otherwise run the wrapped body. -/
def idempotentSupervise (svokAlive : Bool) (wrapped : List LaunchAction) :
    List LaunchAction :=
  if svokAlive then [] else wrapped

/-- Body of `Service.background` (service.py lines 182-195): flock scope,
log sink, `Popen` of `s6-supervise`. -/
def backgroundBody : List LaunchAction :=
  [.enterFlock, .openLogSink, .spawnSupervise]

/-- Body of `Service.foreground` (service.py lines 198-203): flock scope,
then `exec_` of `s6-supervise`. -/
def foregroundBody : List LaunchAction :=
  [.enterFlock, .execSupervise]

/-- `Service.background`, as wrapped by `idempotent_supervise`. -/
def background (svokAlive : Bool) : List LaunchAction :=
  idempotentSupervise svokAlive backgroundBody

/-- `Service.foreground`, as wrapped by `idempotent_supervise`. -/
def foreground (svokAlive : Bool) : List LaunchAction :=
  idempotentSupervise svokAlive foregroundBody

/-- `Service.supervise_env` (service.py lines 209-222): copy the ambient
environment, set `PGCTL_SCRATCH`, `PGCTL_SERVICE` and `PGCTL_SERVICE_LOCK`
(the handle as a decimal string), then set `PGCTL_DEBUG` to `true` when
`debug` holds and remove any inherited `PGCTL_DEBUG` otherwise. The result
is a frozendict in the source; here it is a pure value, immutable by
construction. -/
def superviseEnv (ambient : Env) (scratchDir servicePath : String)
    (lock : Int) (debug : Bool) : Env :=
  let e :=
    envSet
      (envSet (envSet ambient "PGCTL_SCRATCH" scratchDir)
        "PGCTL_SERVICE" servicePath)
      "PGCTL_SERVICE_LOCK" (toString lock)
  if debug then envSet e "PGCTL_DEBUG" "true"
  else envRemove e "PGCTL_DEBUG"

/-- On-disk layout of one service directory, the parts
`ensure_directory_structure` reads or writes: existence of the directory
itself, of `log/`, of the `nosetsid` and `down` markers, of the `ready`
script; the `notification-fd` file content (the fd number written into
it, `none` when the file is absent); existence of the scratch
`supervise` directory; and the target of the `supervise` symlink. -/
structure FsState where
  serviceDir : Bool
  logDir : Bool
  nosetsid : Bool
  down : Bool
  readyScript : Bool
  notificationFd : Option Nat
  scratchSupervise : Bool
  superviseLink : Option String
  deriving DecidableEq, Repr

/-- `Service.ensure_directory_structure` (service.py lines 129-159):
`assert_exists`, ensure `log/` and `nosetsid`, remove `down` tolerating
absence, rewrite `notification-fd` with the opened file's descriptor
number when the `ready` script exists, ensure the scratch `supervise`
directory, and repoint the `supervise` symlink at it with `ln -sfn`.
`fdAlloc` is the descriptor number the OS hands to the `open('w')` call. -/
def ensureDirectoryStructure (scratchDir : String) (fdAlloc : Nat)
    (s : FsState) : Except Err FsState :=
  if s.serviceDir = false then .error .noSuchService
  else
    .ok
      { s with
        logDir := true
        nosetsid := true
        down := false
        notificationFd :=
          if s.readyScript then some fdAlloc else s.notificationFd
        scratchSupervise := true
        superviseLink := some (scratchDir ++ "/supervise") }

/-! Helper lemmas about `flockEnter` and the `assert_stopped` loop. -/

/-- Entering `flock` with no inherited lock entry takes the fresh branch,
and the popped environment still lacks the entry. -/
theorem flockEnter_absent (env : Env)
    (h : env "PGCTL_SERVICE_LOCK" = none) :
    (flockEnter env).1 = .fresh ∧
      ((flockEnter env).2) "PGCTL_SERVICE_LOCK" = none := by
  simp [flockEnter, envPop, h]

/-- The retry loop makes at most `fuel` fresh acquisition attempts beyond
the count it starts from. -/
theorem assertStoppedLoop_attempts_le (lockSeq : Nat → LockOutcome) :
    ∀ (fuel : Nat) (env : Env) (attempts : Nat),
      (assertStoppedLoop lockSeq env fuel attempts).2 ≤ attempts + fuel := by
  intro fuel
  induction fuel with
  | zero => intro env attempts; simp [assertStoppedLoop]
  | succ n ih =>
      intro env attempts
      rw [assertStoppedLoop]
      rcases hfe : flockEnter env with ⟨entry, env'⟩
      cases entry with
      | adopt h => simp
      | valueErr => simp
      | fresh =>
          cases hls : lockSeq attempts with
          | acquired => simp
          | locked =>
              simp only
              have := ih env' (attempts + 1)
              omega

/-- When no inherited lock entry is present and every attempt comes back
`Locked`, the loop exhausts its fuel and reports `Impossible`. -/
theorem assertStoppedLoop_all_locked (lockSeq : Nat → LockOutcome) :
    ∀ (fuel : Nat) (env : Env) (attempts : Nat),
      env "PGCTL_SERVICE_LOCK" = none →
      (∀ i, i < attempts + fuel → lockSeq i = .locked) →
      assertStoppedLoop lockSeq env fuel attempts =
        (.error (.impossible "lost the race 10 times in a row"),
          attempts + fuel) := by
  intro fuel
  induction fuel with
  | zero => intro env attempts _ _; simp [assertStoppedLoop]
  | succ n ih =>
      intro env attempts henv hlock
      obtain ⟨hfr, henv'⟩ := flockEnter_absent env henv
      rw [assertStoppedLoop]
      rcases hfe : flockEnter env with ⟨entry, env'⟩
      rw [hfe] at hfr henv'
      simp only at hfr henv'
      subst hfr
      rw [hlock attempts (by omega)]
      simp only
      rw [ih env' (attempts + 1) henv' (fun i hi => hlock i (by omega))]
      simp [Nat.add_assoc, Nat.add_comm 1 n]

/-- When no inherited lock entry is present and the very next acquisition
attempt succeeds, the loop returns success after exactly one attempt. -/
theorem assertStoppedLoop_first_acquired (lockSeq : Nat → LockOutcome)
    (fuel : Nat) (env : Env) (attempts : Nat)
    (henv : env "PGCTL_SERVICE_LOCK" = none)
    (hacq : lockSeq attempts = .acquired) :
    assertStoppedLoop lockSeq env (fuel + 1) attempts =
      (.ok (), attempts + 1) := by
  obtain ⟨hfr, -⟩ := flockEnter_absent env henv
  rw [assertStoppedLoop]
  rcases hfe : flockEnter env with ⟨entry, env'⟩
  rw [hfe] at hfr
  simp only at hfr
  subst hfr
  rw [hacq]

/-! Claim theorems. -/

/-- C1: for every service whose `notification-fd` file does not exist,
`status()` returns the raw supervisor status with its state replaced by
`ready` exactly when either (a) the raw state is `up` with no sub-process,
or (b) the sub-process is `starting` with last exitcode 0 and zero seconds
in state; in all other cases the raw status is returned unchanged. -/
theorem svstat_ready_upgrade_iff (raw : SvStat) :
    ((raw.state = "up" ∧ raw.process = none) ∨
        (raw.process = some "starting" ∧ raw.exitcode = some 0 ∧
          raw.seconds = some 0) →
      svstatRun true false raw = .ok { raw with state := "ready" }) ∧
    (¬((raw.state = "up" ∧ raw.process = none) ∨
        (raw.process = some "starting" ∧ raw.exitcode = some 0 ∧
          raw.seconds = some 0)) →
      svstatRun true false raw = .ok raw) := by
  constructor
  · intro h
    simp only [svstatRun, classifyStatus]
    rw [if_neg (by simp), if_pos ⟨by simp, h⟩]
  · intro h
    simp only [svstatRun, classifyStatus]
    rw [if_neg (by simp), if_neg (fun hc => h hc.2)]

/-- Witness for C1 at a concrete raw status satisfying condition (a). -/
theorem svstat_ready_upgrade_iff_witness :
    svstatRun true false ⟨"up", none, none, some 5⟩ =
      .ok ⟨"ready", none, none, some 5⟩ :=
  (svstat_ready_upgrade_iff ⟨"up", none, none, some 5⟩).1
    (Or.inl ⟨rfl, rfl⟩)

/-- C2: for every service whose `notification-fd` file exists, `status()`
returns the raw supervisor classification completely unchanged; in
particular the raw status `(up, starting, 0, 0)` keeps its `starting`
sub-state and is never upgraded to `ready`. -/
theorem svstat_notification_passthrough :
    (∀ raw : SvStat, svstatRun true true raw = .ok raw) ∧
    svstatRun true true ⟨"up", some "starting", some 0, some 0⟩ =
      .ok ⟨"up", some "starting", some 0, some 0⟩ ∧
    (classifyStatus true ⟨"up", some "starting", some 0, some 0⟩).state ≠
      "ready" := by
  refine ⟨fun raw => ?_, by decide, by decide⟩
  simp only [svstatRun, classifyStatus]
  rw [if_neg (by simp), if_neg (fun hc => by simp at hc)]

/-- C3: when the `PGCTL_SERVICE_LOCK` environment entry is present and
holds a string-encoded lock handle, entering the flock scope yields that
inherited handle without attempting any new lock acquisition, and the
handle is closed on scope exit; when the entry is absent, the
fresh-exclusive-lock branch runs instead (and no inherited handle is
closed). -/
theorem flock_adopt_or_fresh (env envAbsent : Env) (s : String) (n : Int)
    (hset : env "PGCTL_SERVICE_LOCK" = some s) (hne : s ≠ "")
    (hparse : pyInt s = some n)
    (habsent : envAbsent "PGCTL_SERVICE_LOCK" = none) :
    ((flockEnter env).1 = .adopt n ∧
      flockExitCloses (flockEnter env).1 = some n) ∧
    ((flockEnter envAbsent).1 = .fresh ∧
      flockExitCloses (flockEnter envAbsent).1 = none) := by
  constructor
  · constructor <;> simp [flockEnter, envPop, flockExitCloses, hset, hne, hparse]
  · constructor <;> simp [flockEnter, envPop, flockExitCloses, habsent]

/-- Witness for C3: an environment carrying lock handle 42 is adopted, an
empty environment leads to fresh acquisition. -/
theorem flock_adopt_or_fresh_witness :
    ((flockEnter (envSet (fun _ => none) "PGCTL_SERVICE_LOCK" "42")).1 =
        .adopt 42 ∧
      flockExitCloses
          (flockEnter
            (envSet (fun _ => none) "PGCTL_SERVICE_LOCK" "42")).1 =
        some 42) ∧
    ((flockEnter (fun _ => none)).1 = .fresh ∧
      flockExitCloses (flockEnter (fun _ => none)).1 = none) :=
  flock_adopt_or_fresh _ _ "42" 42 (by simp [envSet]) (by decide)
    (by decide) rfl

/-- C10: entering the flock scope pops `PGCTL_SERVICE_LOCK` from the
process environment when adopting an inherited handle, so the handoff is
single-use within a process: a subsequent flock entry against the popped
environment takes the fresh-acquisition branch. -/
theorem flock_handoff_single_use (env : Env) (s : String) (n : Int)
    (hset : env "PGCTL_SERVICE_LOCK" = some s) (hne : s ≠ "")
    (hparse : pyInt s = some n) :
    (flockEnter env).1 = .adopt n ∧
    ((flockEnter env).2) "PGCTL_SERVICE_LOCK" = none ∧
    (flockEnter (flockEnter env).2).1 = .fresh := by
  have h2 : ((flockEnter env).2) "PGCTL_SERVICE_LOCK" = none := by
    simp [flockEnter, envPop, hset, hne, hparse]
  exact ⟨by simp [flockEnter, envPop, hset, hne, hparse], h2,
    (flockEnter_absent _ h2).1⟩

/-- Witness for C10 at the concrete inherited handle 7. -/
theorem flock_handoff_single_use_witness :
    (flockEnter (envSet (fun _ => none) "PGCTL_SERVICE_LOCK" "7")).1 =
        .adopt 7 ∧
    ((flockEnter
        (envSet (fun _ => none) "PGCTL_SERVICE_LOCK" "7")).2)
        "PGCTL_SERVICE_LOCK" = none ∧
    (flockEnter
        (flockEnter
          (envSet (fun _ => none) "PGCTL_SERVICE_LOCK" "7")).2).1 =
      .fresh :=
  flock_handoff_single_use _ "7" 7 (by simp [envSet]) (by decide)
    (by decide)

/-- C4: `assert_stopped` makes at most 10 non-blocking lock acquisition
attempts; a successful first attempt returns at once after exactly one
attempt, and 10 straight `Locked` failures raise the fatal `Impossible`
error after exactly 10 attempts. -/
theorem assert_stopped_retry_bound (notifExists : Bool) (raw : SvStat)
    (env : Env) (lockSeq : Nat → LockOutcome)
    (hstate : (classifyStatus notifExists raw).state = SvStat.UNSUPERVISED)
    (henv : env "PGCTL_SERVICE_LOCK" = none) :
    (assertStopped true notifExists raw env lockSeq).lockAttempts ≤ 10 ∧
    (lockSeq 0 = .acquired →
      (assertStopped true notifExists raw env lockSeq).result = .ok () ∧
      (assertStopped true notifExists raw env lockSeq).lockAttempts = 1) ∧
    ((∀ i, i < 10 → lockSeq i = .locked) →
      (assertStopped true notifExists raw env lockSeq).result =
        .error (.impossible "lost the race 10 times in a row") ∧
      (assertStopped true notifExists raw env lockSeq).lockAttempts =
        10) := by
  have hres : (assertStopped true notifExists raw env lockSeq).result =
      (assertStoppedLoop lockSeq env 10 0).1 := by
    simp [assertStopped, hstate]
  have hatt : (assertStopped true notifExists raw env lockSeq).lockAttempts =
      (assertStoppedLoop lockSeq env 10 0).2 := by
    simp [assertStopped, hstate]
  refine ⟨?_, ?_, ?_⟩
  · rw [hatt]
    simpa using assertStoppedLoop_attempts_le lockSeq 10 env 0
  · intro hacq
    rw [hres, hatt, show (10 : Nat) = 9 + 1 from rfl,
      assertStoppedLoop_first_acquired lockSeq 9 env 0 henv hacq]
    exact ⟨rfl, rfl⟩
  · intro hlock
    rw [hres, hatt,
      assertStoppedLoop_all_locked lockSeq 10 env 0 henv
        (fun i hi => hlock i (by omega))]
    exact ⟨rfl, rfl⟩

/-- Witness for C4: a permanently locked, `unsupervised`-reporting
service with no inherited lock entry. -/
theorem assert_stopped_retry_bound_witness :
    (assertStopped true true ⟨"unsupervised", none, none, none⟩
        (fun _ => none) (fun _ => .locked)).lockAttempts ≤ 10 ∧
    (LockOutcome.locked = .acquired →
      (assertStopped true true ⟨"unsupervised", none, none, none⟩
          (fun _ => none) (fun _ => .locked)).result = .ok () ∧
      (assertStopped true true ⟨"unsupervised", none, none, none⟩
          (fun _ => none) (fun _ => .locked)).lockAttempts = 1) ∧
    ((∀ i, i < 10 → LockOutcome.locked = LockOutcome.locked) →
      (assertStopped true true ⟨"unsupervised", none, none, none⟩
          (fun _ => none) (fun _ => .locked)).result =
        .error (.impossible "lost the race 10 times in a row") ∧
      (assertStopped true true ⟨"unsupervised", none, none, none⟩
          (fun _ => none) (fun _ => .locked)).lockAttempts = 10) :=
  assert_stopped_retry_bound true ⟨"unsupervised", none, none, none⟩
    (fun _ => none) (fun _ => .locked) (by decide) rfl

/-- C5 counterexample: against a permanently locked but
`unsupervised`-reporting service, the run performs 10 lock-acquisition
attempts yet queries the status only once, so the status check is not
repeated on every retry iteration as the claim states. -/
theorem assert_stopped_status_checked_once_cex :
    (assertStopped true true ⟨"unsupervised", none, none, none⟩
        (fun _ => none) (fun _ => .locked)).svstatCalls = 1 ∧
    (assertStopped true true ⟨"unsupervised", none, none, none⟩
        (fun _ => none) (fun _ => .locked)).lockAttempts = 10 ∧
    ¬((assertStopped true true ⟨"unsupervised", none, none, none⟩
        (fun _ => none) (fun _ => .locked)).svstatCalls ≥
      (assertStopped true true ⟨"unsupervised", none, none, none⟩
        (fun _ => none) (fun _ => .locked)).lockAttempts) := by
  decide

/-- C5 (amended): `assert_stopped` performs the status query exactly once,
before the retry loop; the loop itself only retries the lock acquisition,
at most 10 times. -/
theorem assert_stopped_single_status_query (dirExists notifExists : Bool)
    (raw : SvStat) (env : Env) (lockSeq : Nat → LockOutcome) :
    (assertStopped dirExists notifExists raw env lockSeq).svstatCalls = 1 ∧
    (assertStopped dirExists notifExists raw env lockSeq).lockAttempts
      ≤ 10 := by
  unfold assertStopped
  split
  · exact ⟨rfl, by simp⟩
  · dsimp only
    split
    · exact ⟨rfl, by simp⟩
    · refine ⟨rfl, ?_⟩
      simpa using assertStoppedLoop_attempts_le lockSeq 10 env 0

/-- C6 counterexample: `stop()` on an existing service whose classified
status is `unsupervised` does not fail — it succeeds and issues the
down-and-exit directive, so `stop` does not assert that the service is not
already unsupervised. -/
theorem stop_unsupervised_not_rejected_cex :
    stopRun "playground/web" true
        ⟨SvStat.UNSUPERVISED, none, none, none⟩ =
      .ok (.svcDownExit "playground/web") := by
  decide

/-- C6 (amended): `stop()` first asserts that the service directory exists
(raising `NoSuchService` otherwise), and only then issues the
down-and-exit directive for the service path; the observed status is never
consulted. -/
theorem stop_requires_existence_only (path : String) (dirExists : Bool)
    (status : SvStat) :
    (dirExists = false →
      stopRun path dirExists status = .error .noSuchService) ∧
    (dirExists = true →
      stopRun path dirExists status = .ok (.svcDownExit path)) ∧
    (∀ status' : SvStat,
      stopRun path dirExists status = stopRun path dirExists status') := by
  exact ⟨fun h => by simp [stopRun, h], fun h => by simp [stopRun, h],
    fun _ => rfl⟩

/-- Witness for the amended C6 on an existing service. -/
theorem stop_requires_existence_only_witness :
    stopRun "p" true ⟨"up", none, none, none⟩ =
      .ok (.svcDownExit "p") :=
  (stop_requires_existence_only "p" true ⟨"up", none, none, none⟩).2.1 rfl

/-- C7: `background()` and `foreground()` probe the supervisor first and,
when a live supervisor answers, return successfully having performed no
action at all — no flock scope is entered, nothing is spawned or exec'd;
the launch actions happen exactly when the probe is negative. -/
theorem launcher_idempotent_probe :
    background true = [] ∧ foreground true = [] ∧
    (∀ alive : Bool,
      (LaunchAction.spawnSupervise ∈ background alive ↔ alive = false) ∧
      (LaunchAction.enterFlock ∈ background alive ↔ alive = false) ∧
      (LaunchAction.execSupervise ∈ foreground alive ↔ alive = false) ∧
      (LaunchAction.enterFlock ∈ foreground alive ↔ alive = false)) := by
  decide

/-- C8: `supervise_env` sets exactly the three pgctl entries
(`PGCTL_SCRATCH`, `PGCTL_SERVICE`, string-encoded `PGCTL_SERVICE_LOCK`),
carries `PGCTL_DEBUG` exactly when the debug flag is set (dropping any
inherited one otherwise), and leaves every other ambient entry unchanged;
the result is a pure value, immutable by construction. -/
theorem supervise_env_frame (ambient : Env) (scratchDir servicePath : String)
    (lock : Int) (debug : Bool) :
    superviseEnv ambient scratchDir servicePath lock debug "PGCTL_SCRATCH" =
      some scratchDir ∧
    superviseEnv ambient scratchDir servicePath lock debug "PGCTL_SERVICE" =
      some servicePath ∧
    superviseEnv ambient scratchDir servicePath lock debug
        "PGCTL_SERVICE_LOCK" = some (toString lock) ∧
    superviseEnv ambient scratchDir servicePath lock debug "PGCTL_DEBUG" =
      (if debug then some "true" else none) ∧
    (∀ k : String, k ≠ "PGCTL_SCRATCH" → k ≠ "PGCTL_SERVICE" →
      k ≠ "PGCTL_SERVICE_LOCK" → k ≠ "PGCTL_DEBUG" →
      superviseEnv ambient scratchDir servicePath lock debug k =
        ambient k) := by
  cases debug <;>
    exact ⟨by simp [superviseEnv, envSet, envRemove],
      by simp [superviseEnv, envSet, envRemove],
      by simp [superviseEnv, envSet, envRemove],
      by simp [superviseEnv, envSet, envRemove],
      fun k h1 h2 h3 h4 => by
        simp [superviseEnv, envSet, envRemove, h1, h2, h3, h4]⟩

/-- Witness for C8: an unrelated variable (`HOME`) is left unchanged. -/
theorem supervise_env_frame_witness :
    superviseEnv (fun _ => none) "scratch" "svc" 7 false "HOME" = none :=
  (supervise_env_frame (fun _ => none) "scratch" "svc" 7 false).2.2.2.2
    "HOME" (by decide) (by decide) (by decide) (by decide)

/-- C9: `ensure_directory_structure` is idempotent: a state on which it
succeeds is a fixpoint — rerunning it succeeds and returns the same state
when the OS hands out the same descriptor number, and for any descriptor
number the second run leaves the whole layout (symlink target, marker
files, log directory, scratch directory, `notification-fd` presence)
identical. -/
theorem ensure_directory_structure_idempotent (scratchDir : String)
    (fd1 fd2 : Nat) (s s' : FsState)
    (h : ensureDirectoryStructure scratchDir fd1 s = .ok s') :
    ensureDirectoryStructure scratchDir fd1 s' = .ok s' ∧
    (∃ s'', ensureDirectoryStructure scratchDir fd2 s' = .ok s'' ∧
      s''.superviseLink = s'.superviseLink ∧ s''.nosetsid = s'.nosetsid ∧
      s''.down = s'.down ∧ s''.logDir = s'.logDir ∧
      s''.scratchSupervise = s'.scratchSupervise ∧
      s''.serviceDir = s'.serviceDir ∧
      s''.readyScript = s'.readyScript ∧
      s''.notificationFd.isSome = s'.notificationFd.isSome) := by
  rcases s with ⟨sd, ld, ns, dn, rs, nf, ss, sl⟩
  cases sd with
  | false => simp [ensureDirectoryStructure] at h
  | true =>
      simp only [ensureDirectoryStructure] at h
      rw [if_neg (by decide)] at h
      rw [Except.ok.injEq] at h
      subst h
      cases rs with
      | false =>
          exact ⟨by simp [ensureDirectoryStructure],
            ⟨⟨true, true, true, false, false, nf, true,
                some (scratchDir ++ "/supervise")⟩,
              by simp [ensureDirectoryStructure], rfl, rfl, rfl, rfl, rfl,
              rfl, rfl, rfl⟩⟩
      | true =>
          exact ⟨by simp [ensureDirectoryStructure],
            ⟨⟨true, true, true, false, true, some fd2, true,
                some (scratchDir ++ "/supervise")⟩,
              by simp [ensureDirectoryStructure], rfl, rfl, rfl, rfl, rfl,
              rfl, rfl, rfl⟩⟩

/-- Witness for C9 on a concrete service directory with a `ready` script,
a stale `down` marker and no prior scratch layout. -/
theorem ensure_directory_structure_idempotent_witness :
    ensureDirectoryStructure "sc" 5
        ⟨true, true, true, false, true, some 5, true,
          some "sc/supervise"⟩ =
      .ok ⟨true, true, true, false, true, some 5, true,
        some "sc/supervise"⟩ :=
  (ensure_directory_structure_idempotent "sc" 5 5
    ⟨true, false, false, true, true, none, false, none⟩
    ⟨true, true, true, false, true, some 5, true, some "sc/supervise"⟩
    (by decide)).1

end PgctlService
